import Mathlib

set_option maxHeartbeats 1000000

/- Shallow embedding of the research-assistant workflow of this repository.
   Variant A embeds src/src/agent.py and variant R embeds
   src/src/research_agent.py; the two scripts differ in their per stage
   exception handling, in the step_completed updates and in prompt whitespace. -/

/-- Output schema of the gap analysis agent (pydantic model ResearchGaps). -/
structure ResearchGaps where
  gaps : List String
  improvements : List String
  areas_to_expand : List String
deriving DecidableEq

/-- Output schema of the planning agent (pydantic model ResearchPlan). -/
structure ResearchPlan where
  topic : String
  search_queries : List String
  focus_areas : List String
deriving DecidableEq

/-- Output schema of the editor agent (pydantic model ResearchReport). -/
structure ResearchReport where
  title : String
  outline : List String
  report : String
  sources : List String
  word_count : Int
deriving DecidableEq

/-- Output schema of the comparison agent (pydantic model Comparison). -/
structure Comparison where
  original_summary : String
  improvements_made : List String
  quality_assessment : String
  depth_increase : String
  new_insights : List String
deriving DecidableEq

/-- One entry of st.session_state.collected_facts. -/
structure CollectedFact where
  fact : String
  source : String
  timestamp : String
deriving DecidableEq

/-- The st.session_state.step_completed flag map. -/
structure StepCompleted where
  upload : Bool
  planning : Bool
  research : Bool
  report : Bool
  comparison : Bool
deriving DecidableEq

/-- The Streamlit session state fields used by the workflow. -/
structure SessionState where
  conversation_id : String
  collected_facts : List CollectedFact
  research_done : Bool
  report_result : Option ResearchReport
  original_content : Option String
  comparison_result : Option Comparison
  current_step : Nat
  step_completed : StepCompleted
deriving DecidableEq

/-- Python truthiness of the optional source argument, as in the expression
    source or the literal Not specified: None and the empty string are falsy. -/
def sourceOrDefault : Option String → String
  | none => "Not specified"
  | some s =>
    match s.data with
    | [] => "Not specified"
    | _ :: _ => s

/-- The tool save_important_fact(fact, source=None): appends one entry to
    st.session_state.collected_facts and returns the acknowledgement string.
    The argument now stands for the strftime rendering of datetime.now(). -/
def save_important_fact (fact : String) (source : Option String) (now : String)
    (facts : List CollectedFact) : List CollectedFact × String :=
  (facts ++ [{ fact := fact, source := sourceOrDefault source, timestamp := now }],
   "Fact saved: " ++ fact)

/-- Whether a call to page.extract_text() succeeded. -/
def pageOk : Except String String → Bool
  | Except.ok _ => true
  | Except.error _ => false

/-- The text of a page extraction result, empty for a failed page. -/
def pageText : Except String String → String
  | Except.ok t => t
  | Except.error _ => ""

/-- The exception message of the first failing page. -/
def firstPageError : List (Except String String) → String
  | [] => ""
  | Except.ok _ :: rest => firstPageError rest
  | Except.error e :: _ => e

/-- The loop of extract_pdf_text: text starts empty and each page text is
    appended in document order; an exception on any page aborts the loop. -/
def extractPagesLoop (acc : String) : List (Except String String) → Except String String
  | [] => Except.ok acc
  | Except.error e :: _ => Except.error e
  | Except.ok t :: rest => extractPagesLoop (acc ++ t) rest

/-- extract_pdf_text of src/src/research_agent.py: no try/except, a page
    failure propagates as an exception to the caller. -/
def extract_pdf_textR (pages : List (Except String String)) : Except String String :=
  extractPagesLoop "" pages

/-- extract_pdf_text of src/src/agent.py: the surrounding try/except turns
    any failure into None, so no partial text is ever returned. -/
def extract_pdf_text (pages : List (Except String String)) : Option String :=
  (extractPagesLoop "" pages).toOption

/-- Python truthiness of a string: only the empty string is falsy. -/
def strTruthy (s : String) : Bool :=
  match s.data with
  | [] => false
  | _ :: _ => true

/-- Python truthiness of the optional original_content value. -/
def truthyStr : Option String → Bool
  | none => false
  | some s => strTruthy s

/-- Gap analysis prompt of agent.py. -/
def gapPromptA (oc query : String) : String :=
  "Original Research Content:\n" ++ oc ++ "\nResearch Query: " ++ query ++
  "\nAnalyze this research for gaps and improvements needed."

/-- Gap analysis prompt of research_agent.py. -/
def gapPromptR (oc query : String) : String :=
  "Original Research Content:\n" ++ oc ++ "\n\nResearch Query: " ++ query ++
  "\n\nAnalyze this research for gaps and improvements needed."

/-- The interpolated gap summary of the planning prompt: the str() rendering
    of the gap stage output if gaps_data is truthy, else a fixed literal. -/
def gapsToFill (gapsData : Option ResearchGaps) (gapRendered : String) : String :=
  match gapsData with
  | some _ => gapRendered
  | none => "General research needed"

/-- Planning prompt of agent.py: branches on truthiness of original_content. -/
def planPromptA (query : String) (oc? : Option String) (gapsData : Option ResearchGaps)
    (gapRendered : String) : String :=
  match truthyStr oc? with
  | true =>
    "Research Query: " ++ query ++ "\nGaps to fill: " ++ gapsToFill gapsData gapRendered ++
    "\nCreate a research plan with targeted search queries and focus areas."
  | false => "Create a comprehensive research plan for: " ++ query

/-- Planning prompt of research_agent.py. -/
def planPromptR (query : String) (oc? : Option String) (gapsData : Option ResearchGaps)
    (gapRendered : String) : String :=
  match truthyStr oc? with
  | true =>
    "Research Query: " ++ query ++ "\n\nGaps to fill: " ++ gapsToFill gapsData gapRendered ++
    "\n\nCreate a research plan with targeted search queries and focus areas."
  | false => "Create a comprehensive research plan for: " ++ query

/-- Research prompt of agent.py: joins the queries and focus areas with commas. -/
def researchPromptA (plan : ResearchPlan) : String :=
  "Research queries to investigate:\n" ++ String.intercalate ", " plan.search_queries ++
  "\nFocus areas:\n" ++ String.intercalate ", " plan.focus_areas ++
  "\nResearch these thoroughly and compile findings."

/-- Research prompt of research_agent.py. -/
def researchPromptR (plan : ResearchPlan) : String :=
  "Research queries to investigate:\n" ++ String.intercalate ", " plan.search_queries ++
  "\n\nFocus areas:\n" ++ String.intercalate ", " plan.focus_areas ++
  "\n\nResearch these thoroughly and compile findings."

/-- The interpolated findings of the report prompt: the conditional tests the
    research RunResult object itself, not its textual output; the none case
    stands for an absent result object. -/
def reportFindingsText : Option String → String
  | some o => o
  | none => "Research completed"

/-- Report prompt of agent.py. -/
def reportPromptA (query : String) (res : Option String) : String :=
  "Research Query: " ++ query ++ "\nResearch Findings:\n" ++ reportFindingsText res ++
  "\nWrite a comprehensive, detailed research report (5-10 pages, 1500+ words).\nUse clear sections, headings, and professional formatting."

/-- Report prompt of research_agent.py. -/
def reportPromptR (query : String) (res : Option String) : String :=
  "Research Query: " ++ query ++ "\n\nResearch Findings:\n" ++ reportFindingsText res ++
  "\n\nWrite a comprehensive, detailed research report (5-10 pages, 1500+ words).\nUse clear sections, headings, and professional formatting."

/-- Comparison prompt of agent.py: embeds the reference text and the report body. -/
def comparisonPromptA (oc : String) (rep : ResearchReport) : String :=
  "Original Research:\n" ++ oc ++ "\nNew Research Generated:\n" ++ rep.report ++
  "\nProvide a detailed comparison of both research pieces."

/-- Comparison prompt of research_agent.py. -/
def comparisonPromptR (oc : String) (rep : ResearchReport) : String :=
  "Original Research:\n" ++ oc ++ "\n\nNew Research Generated:\n" ++ rep.report ++
  "\n\nProvide a detailed comparison of both research pieces."

/-- The five pipeline stages, one per Runner.run call site. -/
inductive StageName where
  | gapAnalysis
  | planning
  | researching
  | drafting
  | comparing
deriving DecidableEq, BEq

/-- A record of one Runner.run invocation: the agent invoked, the prompt
    passed to it, and the session state at the moment of the call. -/
structure StageCall where
  stage : StageName
  prompt : String
  stateAt : SessionState

/-- The behavior of the external agent runtime during one run: the outcome of
    each Runner.run call, the str() rendering of the gap analysis output used
    inside the planning prompt, and the save_important_fact calls issued by
    the research agent as (fact, source, current time) triples. The Option in
    gapOutcome models the hasattr gaps check: ok none is a result object
    without a gaps attribute. -/
structure Env where
  gapOutcome : Except String (Option ResearchGaps)
  gapRendered : String
  planOutcome : Except String ResearchPlan
  researchCalls : List (String × Option String × String)
  researchOutcome : Except String String
  reportOutcome : Except String ResearchReport
  comparisonOutcome : Except String Comparison

/-- Folds the save_important_fact calls of the research stage over the
    session fact list, exactly as the tool mutates st.session_state. -/
def recordFacts (facts : List CollectedFact)
    (calls : List (String × Option String × String)) : List CollectedFact :=
  calls.foldl (fun fs c => (save_important_fact c.1 c.2.1 c.2.2 fs).1) facts

/-- The four assignments at the top of run_research (identical in both
    variants): facts, done flag, report and comparison are reset; nothing
    else in the session state is touched. -/
def resetState (s : SessionState) : SessionState :=
  { s with collected_facts := [], research_done := false,
           report_result := none, comparison_result := none }

/-- Step 5 of agent.py: comparison only when original_content is truthy; a
    comparison exception is caught and only reported; research_done is set at
    the end of run_research on every path that reaches this step. -/
def stepComparingA (oc? : Option String) (env : Env) (rep : ResearchReport)
    (s : SessionState) (tr : List StageCall) : SessionState × List StageCall :=
  match oc? with
  | none => ({ s with research_done := true }, tr)
  | some oc =>
    match strTruthy oc with
    | false => ({ s with research_done := true }, tr)
    | true =>
      let call : StageCall :=
        { stage := StageName.comparing, prompt := comparisonPromptA oc rep, stateAt := s }
      match env.comparisonOutcome with
      | Except.error _ => ({ s with research_done := true }, tr ++ [call])
      | Except.ok comp =>
        ({ s with comparison_result := some comp,
                  step_completed := { s.step_completed with comparison := true },
                  research_done := true }, tr ++ [call])

/-- Step 4 of agent.py: report generation; an exception returns early without
    setting research_done, success stores the report and marks the flag. -/
def stepDraftingA (query : String) (oc? : Option String) (env : Env) (researchOut : String)
    (s : SessionState) (tr : List StageCall) : SessionState × List StageCall :=
  let call : StageCall :=
    { stage := StageName.drafting, prompt := reportPromptA query (some researchOut), stateAt := s }
  match env.reportOutcome with
  | Except.error _ => (s, tr ++ [call])
  | Except.ok rep =>
    stepComparingA oc? env rep
      { s with report_result := some rep,
               step_completed := { s.step_completed with report := true } }
      (tr ++ [call])

/-- Step 3 of agent.py: the research agent may append facts as a side effect
    before its call resolves; an exception returns early, success marks the
    research flag and continues to drafting. -/
def stepResearchingA (query : String) (oc? : Option String) (env : Env) (plan : ResearchPlan)
    (s : SessionState) (tr : List StageCall) : SessionState × List StageCall :=
  let call : StageCall :=
    { stage := StageName.researching, prompt := researchPromptA plan, stateAt := s }
  let s1 := { s with collected_facts := recordFacts s.collected_facts env.researchCalls }
  match env.researchOutcome with
  | Except.error _ => (s1, tr ++ [call])
  | Except.ok out =>
    stepDraftingA query oc? env out
      { s1 with step_completed := { s1.step_completed with research := true } }
      (tr ++ [call])

/-- Step 2 of agent.py: planning; an exception returns early, success marks
    the planning flag and continues to researching. -/
def stepPlanningA (query : String) (oc? : Option String) (gapsData : Option ResearchGaps)
    (env : Env) (s : SessionState) (tr : List StageCall) : SessionState × List StageCall :=
  let call : StageCall :=
    { stage := StageName.planning,
      prompt := planPromptA query oc? gapsData env.gapRendered, stateAt := s }
  match env.planOutcome with
  | Except.error _ => (s, tr ++ [call])
  | Except.ok plan =>
    stepResearchingA query oc? env plan
      { s with step_completed := { s.step_completed with planning := true } }
      (tr ++ [call])

/-- run_research of src/src/agent.py: resets part of the session state, then
    runs the stages in order; each fatal stage failure is caught and returns
    early, leaving research_done false; the gap analysis step runs only when
    original_content is truthy. Returns the final session state and the list
    of Runner.run invocations. -/
def run_researchA (query : String) (oc? : Option String) (env : Env)
    (s0 : SessionState) : SessionState × List StageCall :=
  let s := resetState s0
  match oc? with
  | none => stepPlanningA query none none env s []
  | some oc =>
    match strTruthy oc with
    | false => stepPlanningA query (some oc) none env s []
    | true =>
      let call : StageCall :=
        { stage := StageName.gapAnalysis, prompt := gapPromptA oc query, stateAt := s }
      match env.gapOutcome with
      | Except.error _ => (s, [call])
      | Except.ok gapsData => stepPlanningA query (some oc) gapsData env s [call]

/-- Step 5 of research_agent.py: no try/except, a comparison exception
    escapes run_research (third component true); no flag update. -/
def stepComparingR (oc? : Option String) (env : Env) (rep : ResearchReport)
    (s : SessionState) (tr : List StageCall) : SessionState × List StageCall × Bool :=
  match oc? with
  | none => (s, tr, false)
  | some oc =>
    match strTruthy oc with
    | false => (s, tr, false)
    | true =>
      let call : StageCall :=
        { stage := StageName.comparing, prompt := comparisonPromptR oc rep, stateAt := s }
      match env.comparisonOutcome with
      | Except.error _ => (s, tr ++ [call], true)
      | Except.ok comp => ({ s with comparison_result := some comp }, tr ++ [call], false)

/-- Step 4 of research_agent.py: stores the report on success; no flag update. -/
def stepDraftingR (query : String) (oc? : Option String) (env : Env) (researchOut : String)
    (s : SessionState) (tr : List StageCall) : SessionState × List StageCall × Bool :=
  let call : StageCall :=
    { stage := StageName.drafting, prompt := reportPromptR query (some researchOut), stateAt := s }
  match env.reportOutcome with
  | Except.error _ => (s, tr ++ [call], true)
  | Except.ok rep =>
    stepComparingR oc? env rep { s with report_result := some rep } (tr ++ [call])

/-- Step 3 of research_agent.py: facts recorded during the call persist even
    when the call raises; no flag update. -/
def stepResearchingR (query : String) (oc? : Option String) (env : Env) (plan : ResearchPlan)
    (s : SessionState) (tr : List StageCall) : SessionState × List StageCall × Bool :=
  let call : StageCall :=
    { stage := StageName.researching, prompt := researchPromptR plan, stateAt := s }
  let s1 := { s with collected_facts := recordFacts s.collected_facts env.researchCalls }
  match env.researchOutcome with
  | Except.error _ => (s1, tr ++ [call], true)
  | Except.ok out => stepDraftingR query oc? env out s1 (tr ++ [call])

/-- Step 2 of research_agent.py: no flag update. -/
def stepPlanningR (query : String) (oc? : Option String) (gapsData : Option ResearchGaps)
    (env : Env) (s : SessionState) (tr : List StageCall) : SessionState × List StageCall × Bool :=
  let call : StageCall :=
    { stage := StageName.planning,
      prompt := planPromptR query oc? gapsData env.gapRendered, stateAt := s }
  match env.planOutcome with
  | Except.error _ => (s, tr ++ [call], true)
  | Except.ok plan => stepResearchingR query oc? env plan s (tr ++ [call])

/-- run_research of src/src/research_agent.py: no per stage try/except; the
    Bool component records that a stage exception escaped the function; no
    step_completed flag is ever written by this variant. -/
def run_researchR (query : String) (oc? : Option String) (env : Env)
    (s0 : SessionState) : SessionState × List StageCall × Bool :=
  let s := resetState s0
  match oc? with
  | none => stepPlanningR query none none env s []
  | some oc =>
    match strTruthy oc with
    | false => stepPlanningR query (some oc) none env s []
    | true =>
      let call : StageCall :=
        { stage := StageName.gapAnalysis, prompt := gapPromptR oc query, stateAt := s }
      match env.gapOutcome with
      | Except.error _ => (s, [call], true)
      | Except.ok gapsData => stepPlanningR query (some oc) gapsData env s [call]

/-- The top level call site of research_agent.py: run_research either reaches
    its final research_done assignment or raises into the try/except whose
    handler also sets research_done, so the flag ends true either way. -/
def run_researchR_top (query : String) (oc? : Option String) (env : Env)
    (s0 : SessionState) : SessionState × List StageCall :=
  let r := run_researchR query oc? env s0
  ({ r.1 with research_done := true }, r.2.1)

/-- A wall clock instant, the fields that the strftime format string of the
    download file name renders. -/
structure Timestamp where
  year : Nat
  month : Nat
  day : Nat
  hour : Nat
  minute : Nat
  second : Nat
deriving DecidableEq

/-- The decimal digit character for n below ten. -/
def digitChar (n : Nat) : Char := Char.ofNat (48 + n)

/-- A zero padded two digit decimal field, as strftime renders the in range
    month, day, hour, minute and second values. -/
def pad2 (n : Nat) : String := String.mk [digitChar (n / 10 % 10), digitChar (n % 10)]

/-- A zero padded four digit decimal field, as strftime renders %Y for years
    up to 9999. -/
def pad4 (n : Nat) : String :=
  String.mk [digitChar (n / 1000 % 10), digitChar (n / 100 % 10),
             digitChar (n / 10 % 10), digitChar (n % 10)]

/-- The date half of the strftime output. -/
def datePart (t : Timestamp) : String := pad4 t.year ++ pad2 t.month ++ pad2 t.day

/-- The time half of the strftime output. -/
def timePart (t : Timestamp) : String := pad2 t.hour ++ pad2 t.minute ++ pad2 t.second

/-- datetime.now().strftime of the format used in the download file name. -/
def strftimeYmdHMS (t : Timestamp) : String := datePart t ++ "_" ++ timePart t

/-- The three arguments of st.download_button that define the exported
    artifact, in order: data, file_name and mime (identical in both
    variants). -/
def downloadArtifact (rep : ResearchReport) (t : Timestamp) : String × String × String :=
  (rep.report,
   "research_report_" ++ strftimeYmdHMS t ++ ".md",
   "text/markdown")

/-- Every character of the string is a decimal digit. -/
def allDigits (s : String) : Bool := s.data.all Char.isDigit

/-- Whether some call in the trace invokes the given stage. -/
def stagesInvoked (tr : List StageCall) (n : StageName) : Bool :=
  tr.any (fun c => c.stage == n)

/-- Empty fact list, absent report, absent comparison. -/
def cleanState (s : SessionState) : Bool :=
  s.collected_facts.isEmpty && (s.report_result.isNone && s.comparison_result.isNone)

/-- Every gap analysis, planning or researching call of the trace sees an
    empty fact list and absent report and comparison results. -/
def preResearchClean (tr : List StageCall) : Bool :=
  tr.all (fun c =>
    match c.stage with
    | StageName.gapAnalysis => cleanState c.stateAt
    | StageName.planning => cleanState c.stateAt
    | StageName.researching => cleanState c.stateAt
    | _ => true)

/-- The first stage call of the trace sees the reset fields. -/
def firstCallClean (tr : List StageCall) : Bool :=
  match tr.head? with
  | none => true
  | some c => cleanState c.stateAt

/-- The textual output of the research stage when it succeeded, defaulting to
    the empty string. -/
def researchOutD (env : Env) : String :=
  match env.researchOutcome with
  | Except.ok o => o
  | Except.error _ => ""

/-- The prompts of the drafting calls in a trace. -/
def draftPrompts (tr : List StageCall) : List String :=
  (tr.filter (fun c => c.stage == StageName.drafting)).map (fun c => c.prompt)

/-- Substring occurrence test on character lists. -/
def occursInAux (p : List Char) : List Char → Bool
  | [] => p.isEmpty
  | c :: rest => List.isPrefixOf p (c :: rest) || occursInAux p rest

/-- Substring occurrence test on strings. -/
def occursIn (pat s : String) : Bool := occursInAux pat.data s.data

/-- A concrete gap analysis result for test runs. -/
def gaps0 : ResearchGaps :=
  { gaps := ["g1"], improvements := ["i1"], areas_to_expand := ["a1"] }

/-- A concrete research plan for test runs. -/
def plan0 : ResearchPlan :=
  { topic := "topic", search_queries := ["q1", "q2"], focus_areas := ["f1"] }

/-- A research plan whose search_queries list is empty. -/
def planEmptyQueries : ResearchPlan :=
  { topic := "topic", search_queries := [], focus_areas := [] }

/-- A concrete research report for test runs. -/
def rep0 : ResearchReport :=
  { title := "Title", outline := ["s1"], report := "# Title\n\nBody",
    sources := ["src1"], word_count := 1500 }

/-- A concrete comparison result for test runs. -/
def comp0 : Comparison :=
  { original_summary := "orig", improvements_made := ["imp"],
    quality_assessment := "better", depth_increase := "deeper", new_insights := ["new"] }

/-- An agent runtime in which every stage succeeds. -/
def envAllOk : Env :=
  { gapOutcome := Except.ok (some gaps0), gapRendered := "rendered gaps",
    planOutcome := Except.ok plan0,
    researchCalls := [("fact one", some "source one", "10:00:00"),
                      ("fact two", none, "10:00:05")],
    researchOutcome := Except.ok "research summary",
    reportOutcome := Except.ok rep0,
    comparisonOutcome := Except.ok comp0 }

/-- As envAllOk but the research stage raises. -/
def envResearchFail : Env := { envAllOk with researchOutcome := Except.error "research boom" }

/-- As envAllOk but the comparison stage raises. -/
def envComparisonFail : Env :=
  { envAllOk with comparisonOutcome := Except.error "comparison boom" }

/-- As envAllOk but planning returns a plan with empty search_queries. -/
def envPlanEmptyQueries : Env := { envAllOk with planOutcome := Except.ok planEmptyQueries }

/-- As envAllOk but the research stage returns the empty string as its
    textual output. -/
def envResearchEmptyOut : Env := { envAllOk with researchOutcome := Except.ok "" }

/-- The session state as initialized on first load of the script. -/
def freshSession (cid : String) : SessionState :=
  { conversation_id := cid, collected_facts := [], research_done := false,
    report_result := none, original_content := none, comparison_result := none,
    current_step := 0,
    step_completed := { upload := false, planning := false, research := false,
                        report := false, comparison := false } }

/-- Characterization of the page extraction loop: success concatenates page
    texts onto the accumulator in order, any page failure yields the first
    failing exception and no text. -/
theorem extractPagesLoop_spec (pages : List (Except String String)) : ∀ acc : String,
    extractPagesLoop acc pages =
      (if pages.all pageOk = true then
        Except.ok (pages.foldl (fun a p => a ++ pageText p) acc)
       else Except.error (firstPageError pages)) := by
  induction pages with
  | nil => intro acc; simp [extractPagesLoop]
  | cons p rest ih =>
    intro acc
    cases p with
    | ok t =>
      simp only [extractPagesLoop, List.all_cons, pageOk, Bool.true_and, List.foldl_cons,
        pageText, firstPageError]
      exact ih (acc ++ t)
    | error e =>
      simp [extractPagesLoop, List.all_cons, pageOk, firstPageError]

theorem strAppend_assoc (a b c : String) : a ++ b ++ c = a ++ (b ++ c) := by
  rcases a with ⟨da⟩
  rcases b with ⟨db⟩
  rcases c with ⟨dc⟩
  show String.mk (da ++ db ++ dc) = String.mk (da ++ (db ++ dc))
  rw [List.append_assoc]

theorem strLength_append (a b : String) : (a ++ b).length = a.length + b.length := by
  rcases a with ⟨da⟩
  rcases b with ⟨db⟩
  show (da ++ db).length = da.length + db.length
  exact List.length_append da db

theorem pad2_length (n : Nat) : (pad2 n).length = 2 := rfl

theorem pad4_length (n : Nat) : (pad4 n).length = 4 := rfl

theorem isDigit_digitChar (m : Nat) (h : m < 10) : (digitChar m).isDigit = true := by
  interval_cases m <;> decide

theorem allDigits_append (a b : String) : allDigits (a ++ b) = (allDigits a && allDigits b) := by
  rcases a with ⟨da⟩
  rcases b with ⟨db⟩
  show (da ++ db).all Char.isDigit = (da.all Char.isDigit && db.all Char.isDigit)
  exact List.all_append

theorem allDigits_pad2 (n : Nat) : allDigits (pad2 n) = true := by
  show ((digitChar (n / 10 % 10)).isDigit && ((digitChar (n % 10)).isDigit && true)) = true
  rw [isDigit_digitChar _ (Nat.mod_lt _ (by decide)),
    isDigit_digitChar _ (Nat.mod_lt _ (by decide))]
  rfl

theorem allDigits_pad4 (n : Nat) : allDigits (pad4 n) = true := by
  show ((digitChar (n / 1000 % 10)).isDigit && ((digitChar (n / 100 % 10)).isDigit &&
    ((digitChar (n / 10 % 10)).isDigit && ((digitChar (n % 10)).isDigit && true)))) = true
  rw [isDigit_digitChar _ (Nat.mod_lt _ (by decide)),
    isDigit_digitChar _ (Nat.mod_lt _ (by decide)),
    isDigit_digitChar _ (Nat.mod_lt _ (by decide)),
    isDigit_digitChar _ (Nat.mod_lt _ (by decide))]
  rfl

theorem allDigits_datePart (t : Timestamp) : allDigits (datePart t) = true := by
  simp [datePart, allDigits_append, allDigits_pad2, allDigits_pad4]

theorem allDigits_timePart (t : Timestamp) : allDigits (timePart t) = true := by
  simp [timePart, allDigits_append, allDigits_pad2]

/-- Claim C6 (amended): every save_important_fact call, including one with an
    empty fact string, appends exactly one CollectedFact at the end of the
    list, leaving the earlier entries unchanged; the entry carries the given
    fact, the given source when that is a truthy string and the literal Not
    specified when the source is None or empty, and the capture time; the
    returned acknowledgement echoes the fact. The code has no emptiness check
    on the fact argument. -/
theorem save_important_fact_appends (fact : String) (source : Option String)
    (now : String) (facts : List CollectedFact) :
    (save_important_fact fact source now facts).1.length = facts.length + 1 ∧
    (save_important_fact fact source now facts).1.take facts.length = facts ∧
    (save_important_fact fact source now facts).1.getLast? =
      some { fact := fact, source := sourceOrDefault source, timestamp := now } ∧
    (save_important_fact fact source now facts).2 = "Fact saved: " ++ fact := by
  refine ⟨?_, ?_, ?_, rfl⟩
  · simp [save_important_fact]
  · simp [save_important_fact, List.take_left]
  · simp [save_important_fact]

/-- Claim C6 counterexample: a call whose fact argument is the empty string
    still appends an entry, so the claim that an empty fact is rejected or
    ignored is false on this code. -/
theorem save_important_fact_emptyFactAppended :
    (save_important_fact "" none "12:00:00" []).1 =
      [{ fact := "", source := "Not specified", timestamp := "12:00:00" }] ∧
    ¬ ((save_important_fact "" none "12:00:00" []).1 = []) := by
  exact ⟨rfl, by decide⟩

/-- Claim C7: extract_pdf_text returns the concatenation of the page texts in
    document order when every page extraction succeeds; when any page fails
    the agent.py variant returns None and the research_agent.py variant
    propagates the first page exception, so no partial text is ever
    returned. -/
theorem extract_pdf_text_spec (pages : List (Except String String)) :
    extract_pdf_text pages =
      (if pages.all pageOk = true then
        some (pages.foldl (fun a p => a ++ pageText p) "")
       else none) ∧
    extract_pdf_textR pages =
      (if pages.all pageOk = true then
        Except.ok (pages.foldl (fun a p => a ++ pageText p) "")
       else Except.error (firstPageError pages)) := by
  constructor
  · show (extractPagesLoop "" pages).toOption = _
    rw [extractPagesLoop_spec]
    by_cases hc : pages.all pageOk = true <;> simp [hc, Except.toOption]
  · show extractPagesLoop "" pages = _
    exact extractPagesLoop_spec pages ""

/-- The example report body of the round trip property. -/
def repTitleBody : ResearchReport :=
  { title := "T", outline := [], report := "# Title\n\nBody", sources := [], word_count := 3 }

/-- A concrete export instant. -/
def exportInstant : Timestamp :=
  { year := 2025, month := 1, day := 2, hour := 3, minute := 4, second := 5 }

/-- Claim C9: the download artifact offered by st.download_button has data
    byte identical to the report field of the ResearchReport, mime type
    text/markdown, and a file name of the shape research_report_ then eight
    digits, an underscore, six digits and the extension .md, derived from the
    export time; on the concrete report body and a concrete instant the data
    and the rendered file name are checked literally. -/
theorem download_roundtrip (rep : ResearchReport) (t : Timestamp) :
    (downloadArtifact rep t).1 = rep.report ∧
    (downloadArtifact rep t).2.2 = "text/markdown" ∧
    (∃ d tm : String,
      (downloadArtifact rep t).2.1 = "research_report_" ++ d ++ "_" ++ tm ++ ".md" ∧
      d.length = 8 ∧ allDigits d = true ∧ tm.length = 6 ∧ allDigits tm = true) ∧
    (downloadArtifact repTitleBody t).1 = "# Title\n\nBody" ∧
    (downloadArtifact repTitleBody exportInstant).2.1 = "research_report_20250102_030405.md" := by
  refine ⟨rfl, rfl, ⟨datePart t, timePart t, ?_, ?_, allDigits_datePart t, ?_,
    allDigits_timePart t⟩, rfl, ?_⟩
  · show "research_report_" ++ (datePart t ++ "_" ++ timePart t) ++ ".md" = _
    simp [strAppend_assoc]
  · simp [datePart, strLength_append, pad4_length, pad2_length]
  · simp [timePart, strLength_append, pad2_length]
  · decide

/-- Claim C1 (amended): in every run whose Researching stage fails, Drafting
    and Comparing are never invoked afterwards, and the run never writes the
    step_completed entry for report: the flag keeps the value it had at run
    start, so it remains false exactly in sessions where it was false before
    the run (for example a fresh session); it is not reset to false when an
    earlier run of the session had set it. Both script variants. -/
theorem researchFail_aborts (q : String) (oc? : Option String)
    (go : Except String (Option ResearchGaps)) (gr : String)
    (po : Except String ResearchPlan) (rc : List (String × Option String × String))
    (msg : String) (rpo : Except String ResearchReport) (co : Except String Comparison)
    (s0 : SessionState) :
    stagesInvoked (run_researchA q oc? ⟨go, gr, po, rc, Except.error msg, rpo, co⟩ s0).2 StageName.drafting = false ∧
    stagesInvoked (run_researchA q oc? ⟨go, gr, po, rc, Except.error msg, rpo, co⟩ s0).2 StageName.comparing = false ∧
    (run_researchA q oc? ⟨go, gr, po, rc, Except.error msg, rpo, co⟩ s0).1.step_completed.report = s0.step_completed.report ∧
    stagesInvoked (run_researchR_top q oc? ⟨go, gr, po, rc, Except.error msg, rpo, co⟩ s0).2 StageName.drafting = false ∧
    stagesInvoked (run_researchR_top q oc? ⟨go, gr, po, rc, Except.error msg, rpo, co⟩ s0).2 StageName.comparing = false ∧
    (run_researchR_top q oc? ⟨go, gr, po, rc, Except.error msg, rpo, co⟩ s0).1.step_completed.report = s0.step_completed.report := by
  rcases oc? with _ | ⟨_ | ⟨c, cs⟩⟩ <;> cases go <;> cases po <;>
    exact ⟨rfl, rfl, rfl, rfl, rfl, rfl⟩

/-- Claim C1 counterexample: after a fully successful first run of the same
    session, a second run whose Researching stage fails still ends with
    step_completed.report equal to true, because run_research never resets
    the flag map; so the claim that the report entry remains false at the end
    of every such run is refuted at this concrete input. -/
theorem researchFail_reportFlag_persists :
    envResearchFail.researchOutcome = Except.error "research boom" ∧
    stagesInvoked (run_researchA "q" none envResearchFail
      ((run_researchA "q" none envAllOk (freshSession "cid0")).1)).2 StageName.researching = true ∧
    (run_researchA "q" none envResearchFail
      ((run_researchA "q" none envAllOk (freshSession "cid0")).1)).1.step_completed.report = true :=
  ⟨rfl, rfl, rfl⟩

/-- An agent runtime in which the gap, planning, research and drafting stages
    succeed and the comparison stage raises. -/
def envDraftOkCompareFail (gd : Option ResearchGaps) (gr : String) (pl : ResearchPlan)
    (rc : List (String × Option String × String)) (out : String) (rep : ResearchReport)
    (msg : String) : Env :=
  { gapOutcome := Except.ok gd, gapRendered := gr, planOutcome := Except.ok pl,
    researchCalls := rc, researchOutcome := Except.ok out, reportOutcome := Except.ok rep,
    comparisonOutcome := Except.error msg }

/-- Claim C2 (amended): for every run with a truthy reference document in
    which Drafting succeeds and Comparing then fails, both variants end with
    research_done true, the generated report still stored, and the comparison
    result absent without the session crashing; the agent.py variant also
    ends with step_completed.report true, while the research_agent.py variant
    never writes that flag, which therefore keeps its start of run value
    (false in a fresh session). -/
theorem comparisonFail_tolerated (q oc : String) (gd : Option ResearchGaps) (gr : String)
    (pl : ResearchPlan) (rc : List (String × Option String × String)) (out : String)
    (rep : ResearchReport) (msg : String) (s0 : SessionState) (h : strTruthy oc = true) :
    (run_researchA q (some oc) (envDraftOkCompareFail gd gr pl rc out rep msg) s0).1.research_done = true ∧
    (run_researchA q (some oc) (envDraftOkCompareFail gd gr pl rc out rep msg) s0).1.step_completed.report = true ∧
    (run_researchA q (some oc) (envDraftOkCompareFail gd gr pl rc out rep msg) s0).1.report_result = some rep ∧
    (run_researchA q (some oc) (envDraftOkCompareFail gd gr pl rc out rep msg) s0).1.comparison_result = none ∧
    (run_researchR_top q (some oc) (envDraftOkCompareFail gd gr pl rc out rep msg) s0).1.research_done = true ∧
    (run_researchR_top q (some oc) (envDraftOkCompareFail gd gr pl rc out rep msg) s0).1.report_result = some rep ∧
    (run_researchR_top q (some oc) (envDraftOkCompareFail gd gr pl rc out rep msg) s0).1.comparison_result = none ∧
    (run_researchR_top q (some oc) (envDraftOkCompareFail gd gr pl rc out rep msg) s0).1.step_completed.report = s0.step_completed.report := by
  obtain ⟨_ | ⟨c, cs⟩⟩ := oc
  · exact Bool.noConfusion h
  · exact ⟨rfl, rfl, rfl, rfl, rfl, rfl, rfl, rfl⟩

/-- Witness for claim C2: the amended theorem applied to a concrete run with
    a reference document, successful drafting and a failing comparison. -/
theorem comparisonFail_tolerated_witness :
    strTruthy "doc" = true ∧
    ((run_researchA "q" (some "doc") (envDraftOkCompareFail (some gaps0) "rendered gaps" plan0 [] "research summary" rep0 "comparison boom") (freshSession "cid1")).1.research_done = true ∧
    (run_researchA "q" (some "doc") (envDraftOkCompareFail (some gaps0) "rendered gaps" plan0 [] "research summary" rep0 "comparison boom") (freshSession "cid1")).1.step_completed.report = true ∧
    (run_researchA "q" (some "doc") (envDraftOkCompareFail (some gaps0) "rendered gaps" plan0 [] "research summary" rep0 "comparison boom") (freshSession "cid1")).1.report_result = some rep0 ∧
    (run_researchA "q" (some "doc") (envDraftOkCompareFail (some gaps0) "rendered gaps" plan0 [] "research summary" rep0 "comparison boom") (freshSession "cid1")).1.comparison_result = none ∧
    (run_researchR_top "q" (some "doc") (envDraftOkCompareFail (some gaps0) "rendered gaps" plan0 [] "research summary" rep0 "comparison boom") (freshSession "cid1")).1.research_done = true ∧
    (run_researchR_top "q" (some "doc") (envDraftOkCompareFail (some gaps0) "rendered gaps" plan0 [] "research summary" rep0 "comparison boom") (freshSession "cid1")).1.report_result = some rep0 ∧
    (run_researchR_top "q" (some "doc") (envDraftOkCompareFail (some gaps0) "rendered gaps" plan0 [] "research summary" rep0 "comparison boom") (freshSession "cid1")).1.comparison_result = none ∧
    (run_researchR_top "q" (some "doc") (envDraftOkCompareFail (some gaps0) "rendered gaps" plan0 [] "research summary" rep0 "comparison boom") (freshSession "cid1")).1.step_completed.report = (freshSession "cid1").step_completed.report) :=
  ⟨rfl, comparisonFail_tolerated "q" "doc" (some gaps0) "rendered gaps" plan0 [] "research summary" rep0
    "comparison boom" (freshSession "cid1") rfl⟩

/-- Claim C2 counterexample: in the research_agent.py variant, a run with a
    reference document whose Drafting succeeds (the report is stored) and
    whose Comparing fails does not end with step_completed.report equal to
    true: that variant never writes the report flag, so it is still false in
    a fresh session. -/
theorem comparisonFail_reportFlag_falseR :
    envComparisonFail.comparisonOutcome = Except.error "comparison boom" ∧
    (run_researchR_top "q" (some "doc") envComparisonFail (freshSession "cid2")).1.report_result = some rep0 ∧
    (run_researchR_top "q" (some "doc") envComparisonFail (freshSession "cid2")).1.comparison_result = none ∧
    ¬ ((run_researchR_top "q" (some "doc") envComparisonFail (freshSession "cid2")).1.step_completed.report = true) := by
  refine ⟨rfl, rfl, rfl, ?_⟩
  decide

/-- Claim C3 (amended): a successful Planning stage is accepted even when the
    returned ResearchPlan has an empty search_queries list; the run marks
    planning complete and always proceeds to invoke Researching (whose prompt
    joins the possibly empty lists); no Failed Planning abort happens for an
    empty plan, only an exception raised by the planning call aborts. -/
theorem emptyQueries_notFatal (q : String) (oc? : Option String)
    (go : Except String (Option ResearchGaps)) (gr : String) (pl : ResearchPlan)
    (rc : List (String × Option String × String)) (ro : Except String String)
    (rpo : Except String ResearchReport) (co : Except String Comparison)
    (s0 : SessionState)
    (_hq : pl.search_queries = [])
    (hgap : truthyStr oc? = false ∨ ∃ g, go = Except.ok g) :
    stagesInvoked (run_researchA q oc? ⟨go, gr, Except.ok pl, rc, ro, rpo, co⟩ s0).2 StageName.researching = true ∧
    (run_researchA q oc? ⟨go, gr, Except.ok pl, rc, ro, rpo, co⟩ s0).1.step_completed.planning = true := by
  rcases oc? with _ | ⟨_ | ⟨c, cs⟩⟩
  · cases ro <;> cases rpo <;> cases co <;> exact ⟨rfl, rfl⟩
  · cases ro <;> cases rpo <;> cases co <;> exact ⟨rfl, rfl⟩
  · rcases hgap with hf | ⟨g, hg⟩
    · exact Bool.noConfusion hf
    · subst hg
      cases ro <;> cases rpo <;> cases co <;> exact ⟨rfl, rfl⟩

/-- Witness for claim C3: the amended theorem applied to a concrete run
    without a document whose plan has an empty search_queries list. -/
theorem emptyQueries_notFatal_witness :
    planEmptyQueries.search_queries = [] ∧
    (truthyStr none = false ∨ ∃ g, (Except.ok (some gaps0) : Except String (Option ResearchGaps)) = Except.ok g) ∧
    (stagesInvoked (run_researchA "q" none ⟨Except.ok (some gaps0), "rendered gaps", Except.ok planEmptyQueries, [], Except.ok "research summary", Except.ok rep0, Except.ok comp0⟩ (freshSession "cid3")).2 StageName.researching = true ∧
    (run_researchA "q" none ⟨Except.ok (some gaps0), "rendered gaps", Except.ok planEmptyQueries, [], Except.ok "research summary", Except.ok rep0, Except.ok comp0⟩ (freshSession "cid3")).1.step_completed.planning = true) :=
  ⟨rfl, Or.inl rfl,
   emptyQueries_notFatal "q" none (Except.ok (some gaps0)) "rendered gaps" planEmptyQueries []
     (Except.ok "research summary") (Except.ok rep0) (Except.ok comp0)
     (freshSession "cid3") rfl (Or.inl rfl)⟩

/-- Claim C3 counterexample: a run in which Planning returns a ResearchPlan
    with empty search_queries does not abort: Researching and Drafting are
    invoked and the run ends with research_done true, refuting the claimed
    transition to a Failed Planning state. -/
theorem emptyQueries_run_proceeds :
    envPlanEmptyQueries.planOutcome = Except.ok planEmptyQueries ∧
    planEmptyQueries.search_queries = [] ∧
    stagesInvoked (run_researchA "q" none envPlanEmptyQueries (freshSession "cid4")).2 StageName.researching = true ∧
    stagesInvoked (run_researchA "q" none envPlanEmptyQueries (freshSession "cid4")).2 StageName.drafting = true ∧
    (run_researchA "q" none envPlanEmptyQueries (freshSession "cid4")).1.research_done = true :=
  ⟨rfl, rfl, rfl, rfl, rfl⟩

/-- Claim C4: a run started with a non-empty topic and no reference document
    never invokes GapAnalysis or Comparing, and leaves the step_completed
    entry for comparison unchanged, so the run never sets it true. -/
theorem noDocument_skips (q : String) (env : Env) (s0 : SessionState) (_hq : q ≠ "") :
    stagesInvoked (run_researchA q none env s0).2 StageName.gapAnalysis = false ∧
    stagesInvoked (run_researchA q none env s0).2 StageName.comparing = false ∧
    (run_researchA q none env s0).1.step_completed.comparison = s0.step_completed.comparison := by
  obtain ⟨go, gr, po, rc, ro, rpo, co⟩ := env
  cases po <;> cases ro <;> cases rpo <;> exact ⟨rfl, rfl, rfl⟩

/-- Witness for claim C4: the theorem applied to a concrete documentless run
    with a non-empty topic. -/
theorem noDocument_skips_witness :
    "topic" ≠ "" ∧
    (stagesInvoked (run_researchA "topic" none envAllOk (freshSession "cid5")).2 StageName.gapAnalysis = false ∧
    stagesInvoked (run_researchA "topic" none envAllOk (freshSession "cid5")).2 StageName.comparing = false ∧
    (run_researchA "topic" none envAllOk (freshSession "cid5")).1.step_completed.comparison = (freshSession "cid5").step_completed.comparison) :=
  ⟨by decide, noDocument_skips "topic" envAllOk (freshSession "cid5") (by decide)⟩

/-- Claim C5: across two consecutive runs of one session, the second run
    resets the collected facts, report and comparison before any stage
    executes: its first stage call, and every gap analysis, planning and
    researching call, sees an empty fact list and absent report and
    comparison, regardless of how many facts the first run collected. -/
theorem secondRun_resets (q1 : String) (oc1 : Option String) (env1 : Env)
    (q2 : String) (oc2 : Option String) (env2 : Env) (s0 : SessionState) :
    preResearchClean (run_researchA q2 oc2 env2 ((run_researchA q1 oc1 env1 s0).1)).2 = true ∧
    firstCallClean (run_researchA q2 oc2 env2 ((run_researchA q1 oc1 env1 s0).1)).2 = true := by
  obtain ⟨go, gr, po, rc, ro, rpo, co⟩ := env2
  rcases oc2 with _ | ⟨_ | ⟨c, cs⟩⟩ <;> cases go <;> cases po <;> cases ro <;>
    cases rpo <;> cases co <;> exact ⟨rfl, rfl⟩

/-- Claim C8 (amended): whenever a run reaches Drafting, the drafting prompt
    is built from the original query and the research stage textual output
    embedded as is; the placeholder Research completed would be embedded only
    if the research result object itself were absent, which never happens on
    a path that reaches Drafting, so in particular an empty textual output is
    embedded as the empty string rather than replaced by the placeholder.
    Both variants. -/
theorem draftPrompt_embeds (q : String) (oc? : Option String) (env : Env)
    (s0 : SessionState) (out : String) :
    (draftPrompts (run_researchA q oc? env s0).2 = [] ∨
     draftPrompts (run_researchA q oc? env s0).2 = [reportPromptA q (some (researchOutD env))]) ∧
    (draftPrompts (run_researchR_top q oc? env s0).2 = [] ∨
     draftPrompts (run_researchR_top q oc? env s0).2 = [reportPromptR q (some (researchOutD env))]) ∧
    reportPromptA q (some out) =
      "Research Query: " ++ q ++ "\nResearch Findings:\n" ++ out ++
      "\nWrite a comprehensive, detailed research report (5-10 pages, 1500+ words).\nUse clear sections, headings, and professional formatting." ∧
    reportPromptA q none =
      "Research Query: " ++ q ++ "\nResearch Findings:\n" ++ "Research completed" ++
      "\nWrite a comprehensive, detailed research report (5-10 pages, 1500+ words).\nUse clear sections, headings, and professional formatting." := by
  obtain ⟨go, gr, po, rc, ro, rpo, co⟩ := env
  rcases oc? with _ | ⟨_ | ⟨c, cs⟩⟩ <;> cases go <;> cases po <;> cases ro <;>
    cases rpo <;> cases co <;>
    exact ⟨by first | exact Or.inl rfl | exact Or.inr rfl,
           by first | exact Or.inl rfl | exact Or.inr rfl, rfl, rfl⟩

/-- Claim C8 counterexample: a run whose research stage returns the empty
    string, hence no textual output, still reaches Drafting with a prompt in
    which the placeholder Research completed does not occur, refuting the
    claimed equivalence between no textual output and the placeholder. -/
theorem draftPrompt_emptyOutput_noPlaceholder :
    researchOutD envResearchEmptyOut = "" ∧
    draftPrompts (run_researchA "q" none envResearchEmptyOut (freshSession "cid6")).2 =
      [reportPromptA "q" (some "")] ∧
    ((draftPrompts (run_researchA "q" none envResearchEmptyOut (freshSession "cid6")).2).all
      fun p => !(occursIn "Research completed" p)) = true := by
  refine ⟨rfl, rfl, ?_⟩
  decide

/-- Claim C10: entering run_research resets exactly the collected facts, the
    research_done flag, the report result and the comparison result; the
    conversation identifier, the uploaded content, the current step and the
    whole step_completed flag map are left unchanged, and the first stage
    call of any later run still sees the unchanged flag map of the session,
    so a flag set true by a previous run is still true when a later run
    starts. -/
theorem runEntry_frame (s : SessionState) (q : String) (oc? : Option String) (env : Env) :
    (resetState s).step_completed = s.step_completed ∧
    (resetState s).conversation_id = s.conversation_id ∧
    (resetState s).original_content = s.original_content ∧
    (resetState s).current_step = s.current_step ∧
    (resetState s).collected_facts = [] ∧
    (resetState s).research_done = false ∧
    (resetState s).report_result = none ∧
    (resetState s).comparison_result = none ∧
    ((run_researchA q oc? env s).2.head?.map fun c => c.stateAt.step_completed) = some s.step_completed := by
  obtain ⟨go, gr, po, rc, ro, rpo, co⟩ := env
  rcases oc? with _ | ⟨_ | ⟨c, cs⟩⟩ <;> cases go <;> cases po <;> cases ro <;>
    cases rpo <;> cases co <;> exact ⟨rfl, rfl, rfl, rfl, rfl, rfl, rfl, rfl, rfl⟩
